import Mathlib

/-!
Verification of the configuration requirement schema
(`volatility/framework/configuration/__init__.py`).

The Python module defines requirement nodes (scalar instance requirements,
translation-layer/resource references, choices, lists, and the two boolean
combinators) each with a `validate` method that raises `TypeError`,
`ValueError` or `IndexError` on invalid input.  We embed the dynamic Python
values, Python's `isinstance` semantics (where `bool` is a subclass of
`int`), the failing constructors, and the `validate` dispatch as total Lean
functions returning `Except PyError Unit`.

Mapping of the spec's failure taxonomy onto the source's raise sites:
* `TypeMismatch`       — the `TypeError` raised by `InstanceRequirement.validate`,
                          by `TranslationLayerRequirement.validate` on non-strings,
                          and by the list-value type check;
* `NotInChoiceSet`     — the `ValueError` in `ChoiceRequirement.validate`;
* `ArityViolation`     — `TypeError "List option provided more or less elements than allowed."`;
* `ElementInvalid`     — `TypeError "At least one element in the list is not of the correct type."`;
* `UnresolvedReference`— the `IndexError` in `TranslationLayerRequirement.validate`;
* `MissingChildResults`— `ValueError "A Disjunction/Conjunction requirement cannot exist without children"`;
* `NoValidChild`       — `ValueError "No valid children to support the Disjunction Requirement"`;
* `AnyChildInvalid`    — `ValueError "An invalid child prevents the Conjunction Requirement"`;
* `InvalidSchema`      — any `TypeError` raised from a constructor.
-/

/-- Runtime Python values the module manipulates: booleans, integers,
strings, lists and `None`. -/
inductive PyValue where
  | bool (b : Bool)
  | int (n : Int)
  | str (s : String)
  | list (xs : List PyValue)
  | none
deriving Repr

/-- The Python types used as `instance_type` / `isinstance` second arguments
in the module: `bool`, `int`, `str`, `list`. -/
inductive PyType where
  | bool
  | int
  | str
  | list
deriving Repr, DecidableEq

/-- `type.__name__` for the types above. -/
def PyType.typeName : PyType → String
  | .bool => "bool"
  | .int => "int"
  | .str => "str"
  | .list => "list"

/-- Python `isinstance(v, t)`.  Crucially, `bool` is a subclass of `int` in
Python, so `isinstance(True, int)` is `True`; no other cross-type instance
relation holds between these types, and `None` is an instance of none of
them. -/
def isinst (v : PyValue) (t : PyType) : Bool :=
  match v, t with
  | .bool _, .bool => true
  | .bool _, .int => true
  | .int _, .int => true
  | .str _, .str => true
  | .list _, .list => true
  | _, _ => false

/-- `type(v)` — the exact runtime type of a value (`Option.none` for the
`None` value, whose type `NoneType` is not among the schema types). -/
def runtimeType : PyValue → Option PyType
  | .bool _ => some .bool
  | .int _ => some .int
  | .str _ => some .str
  | .list _ => some .list
  | .none => Option.none

/-- The Python exceptions raised by the module, with their messages. -/
inductive PyError where
  | typeError (msg : String)
  | valueError (msg : String)
  | indexError (msg : String)
deriving Repr, DecidableEq

/-- Python membership `v in xs` for a list `xs` of strings.  Python `==`
never identifies a `str` with a value of another of the embedded types
(numeric cross-type equality only relates `bool` and `int`), so membership
holds exactly for an equal string. -/
def pyInStrList (xs : List String) (v : PyValue) : Bool :=
  match v with
  | .str s => xs.contains s
  | _ => false

/-- The external resolution context.  The source consults `context.memory`
only through the membership test `value in context.memory`; we model the
registered resource namespace as a list of layer names. -/
structure Context where
  memory : List String
deriving Repr

/-- A constructed requirement node, one variant per concrete class of the
module.  `instanceReq` covers `InstanceRequirement` (with its class-level
`instance_type`, `bool` for the base class, `int` for `IntRequirement`,
`str` for `StringRequirement`), carrying the `name` and `optional`
attributes installed by the base initializer.  `choiceReq` carries the
`_choices` stored by a successful `ChoiceRequirement.__init__` (hence all
strings); `listReq` carries `element_type`, `max_elements`, `min_elements`
in the source's parameter order. -/
inductive SchemaNode where
  | instanceReq (instance_type : PyType) (name : String) (optional : Bool)
  | translationLayerReq
  | choiceReq (choices : List String)
  | listReq (element_type : SchemaNode) (max_elements : Int) (min_elements : Int)
  | disjunctionReq
  | conjunctionReq
deriving Repr

/-- `isinstance(element_type, ListRequirement)`. -/
def SchemaNode.isListReq : SchemaNode → Bool
  | .listReq _ _ _ => true
  | _ => false

/-- Modelled from the spec: the declared value kind of a requirement node.
Scalar nodes declare their `expected_kind`; a choice requirement is over "a
fixed, author-supplied set of string alternatives"; a resource reference
"enforces value is a string"; a list requirement expects a sequence; the
boolean combinators carry "no value-type of their own". -/
def declaredKind : SchemaNode → Option PyType
  | .instanceReq t _ _ => some t
  | .translationLayerReq => some .str
  | .choiceReq _ => some .str
  | .listReq _ _ _ => some .list
  | .disjunctionReq => Option.none
  | .conjunctionReq => Option.none

/-- Modelled from the spec: the base-class helper `_type_check(element, node)`
(defined in `volatility.framework.interfaces.configuration`, which is not
under src/) as used in `ListRequirement.validate`, step (2) of §4.3: "fail
`ElementInvalid` if any element's runtime kind is incompatible with
`element_requirement`'s declared kind".  Kind compatibility is Python's
`isinstance`; a node with no declared kind constrains nothing. -/
def kindCheck (v : PyValue) (n : SchemaNode) : Bool :=
  match declaredKind n with
  | some t => isinst v t
  | Option.none => true

/-- The `TypeError` of the `ElementInvalid` raise site in
`ListRequirement.validate`. -/
def elementInvalidError : PyError :=
  .typeError "At least one element in the list is not of the correct type."

/-- The `TypeError` of the `ArityViolation` raise site in
`ListRequirement.validate`. -/
def arityViolationError : PyError :=
  .typeError "List option provided more or less elements than allowed."

/-- The `ValueError` of the `NotInChoiceSet` raise site in
`ChoiceRequirement.validate`. -/
def notInChoiceSetError : PyError :=
  .valueError "Value is not within the set of available choices"

/-- The `ValueError` of the `MissingChildResults` raise site in
`DisjunctionRequirement.validate`. -/
def disjunctionMissingChildrenError : PyError :=
  .valueError "A Disjunction requirement cannot exist without children"

/-- The `ValueError` of the `NoValidChild` raise site in
`DisjunctionRequirement.validate`. -/
def noValidChildError : PyError :=
  .valueError "No valid children to support the Disjunction Requirement"

/-- The `ValueError` of the `MissingChildResults` raise site in
`ConjunctionRequirement.validate`. -/
def conjunctionMissingChildrenError : PyError :=
  .valueError "A Conjunction requirement cannot exist without children"

/-- The `ValueError` of the `AnyChildInvalid` raise site in
`ConjunctionRequirement.validate`. -/
def anyChildInvalidError : PyError :=
  .valueError "An invalid child prevents the Conjunction Requirement"

/-- The `TypeError` message of `InstanceRequirement.validate`:
`self.name + " input only accepts " + self.instance_type.__name__ + " type"`. -/
def instanceTypeError (name : String) (t : PyType) : PyError :=
  .typeError (name ++ " input only accepts " ++ t.typeName ++ " type")

/-- `TypeError` of the `TypeMismatch` raise site in
`TranslationLayerRequirement.validate`. -/
def translationLayerTypeError : PyError :=
  .typeError "TranslationLayerRequirements only accepts string labels"

/-- `IndexError` of the `UnresolvedReference` raise site:
`(value or "") + " is not a memory layer"` (an empty string is falsy in
Python, so `value or ""` is `value` unless `value` is empty). -/
def unresolvedReferenceError (s : String) : PyError :=
  .indexError ((if s == "" then "" else s) ++ " is not a memory layer")

/-- Modelled from the spec: the `TypeMismatch` failure of the base-class
`_type_check(value, list)` call opening `ListRequirement.validate` (the
helper itself is not under src/); §4.3 step (1): "fail `TypeMismatch` if
`value` is not a sequence". -/
def listValueTypeError : PyError :=
  .typeError "list instance required"

/-- Run `element_type.validate(element, context)` over each element in
order, stopping at (and propagating) the first failure — the source's
`for element in value: self.element_type.validate(element, context)` loop. -/
def runAll (f : PyValue → Except PyError Unit) : List PyValue → Except PyError Unit
  | [] => .ok ()
  | x :: xs =>
    match f x with
    | .ok _ => runAll f xs
    | .error e => .error e

/-- The `validate(self, value, context, valid_children = None)` method of
each concrete requirement class, dispatched on the node variant exactly as
the Python classes define it:

* `InstanceRequirement.validate`: raise `TypeError` unless
  `isinstance(value, self.instance_type)`;
* `TranslationLayerRequirement.validate`: raise `TypeError` unless the value
  is a string, then `IndexError` unless `value in context.memory`;
* `ChoiceRequirement.validate`: raise `ValueError` unless
  `value in self._choices`;
* `ListRequirement.validate`: `_type_check(value, list)`; raise the
  element-type `TypeError` unless every element passes the kind check
  against `element_type`; raise the arity `TypeError` unless
  `min_elements <= len(value) <= max_elements`; then run
  `element_type.validate` on every element;
* `DisjunctionRequirement.validate`: raise `ValueError` when
  `valid_children is None`, then when `not any(valid_children)`;
* `ConjunctionRequirement.validate`: raise `ValueError` when
  `valid_children is None`, then when `not all(valid_children)`. -/
def SchemaNode.validate : SchemaNode → PyValue → Context → Option (List Bool) → Except PyError Unit
  | .instanceReq instance_type name _, value, _, _ =>
    if isinst value instance_type then .ok ()
    else .error (instanceTypeError name instance_type)
  | .translationLayerReq, value, ctx, _ =>
    match value with
    | .str s =>
      if ctx.memory.contains s then .ok ()
      else .error (unresolvedReferenceError s)
    | _ => .error translationLayerTypeError
  | .choiceReq choices, value, _, _ =>
    if pyInStrList choices value then .ok ()
    else .error notInChoiceSetError
  | .listReq element_type max_elements min_elements, value, ctx, _ =>
    match value with
    | .list xs =>
      if xs.all (fun e => kindCheck e element_type) then
        if min_elements ≤ (xs.length : Int) ∧ (xs.length : Int) ≤ max_elements then
          runAll (fun e => SchemaNode.validate element_type e ctx Option.none) xs
        else .error arityViolationError
      else .error elementInvalidError
    | _ => .error listValueTypeError
  | .disjunctionReq, _, _, valid_children =>
    match valid_children with
    | Option.none => .error disjunctionMissingChildrenError
    | some l => if l.any id then .ok () else .error noValidChildError
  | .conjunctionReq, _, _, valid_children =>
    match valid_children with
    | Option.none => .error conjunctionMissingChildrenError
    | some l => if l.all id then .ok () else .error anyChildInvalidError
termination_by n _ _ _ => sizeOf n

/-- The constructor `TypeError` (spec kind `InvalidSchema`) of
`ChoiceRequirement.__init__`. -/
def invalidChoicesError : PyError :=
  .typeError "ChoiceRequirement takes a list of strings as choices"

/-- The constructor `TypeError` (spec kind `InvalidSchema`) of
`ListRequirement.__init__`. -/
def nestedListError : PyError :=
  .typeError "ListRequirements cannot contain ListRequirements"

/-- `ChoiceRequirement.__init__(self, choices, ...)`: raise `TypeError` if
`choices` is not a `list` or any element is not a `str`; otherwise store
`self._choices = choices`.  On success all elements are strings, so the
stored choices are kept as a `List String`. -/
def ChoiceRequirement.init (choices : PyValue) : Except PyError SchemaNode :=
  match choices with
  | .list xs =>
    if xs.any (fun c => !(isinst c .str)) then
      .error invalidChoicesError
    else
      .ok (.choiceReq (xs.filterMap (fun c =>
        match c with
        | .str s => some s
        | _ => Option.none)))
  | _ => .error invalidChoicesError

/-- `ListRequirement.__init__(self, element_type, max_elements, min_elements, ...)`:
raise `TypeError` if `element_type` is a `ListRequirement`; the subsequent
`self._type_check(element_type, ConfigurationSchemaNode)` is the identity
here because every `SchemaNode` is a schema node; no check whatsoever is
made on `min_elements` and `max_elements`. -/
def ListRequirement.init (element_type : SchemaNode) (max_elements min_elements : Int) :
    Except PyError SchemaNode :=
  if element_type.isListReq then
    .error nestedListError
  else
    .ok (.listReq element_type max_elements min_elements)

/-- The attribute slots a requirement-node object can carry: the four
attributes stored by the base initializer plus `_layer_name` stored by
`TranslationLayerRequirement.__init__`.  `Option.none` means the attribute
was never set on the object. -/
structure NodeAttrs where
  name : Option PyValue
  description : Option PyValue
  default : Option PyValue
  optional : Option PyValue
  layer_name : Option PyValue
deriving Repr

/-- A freshly created instance: no attribute has been set yet. -/
def freshNodeAttrs : NodeAttrs :=
  ⟨Option.none, Option.none, Option.none, Option.none, Option.none⟩

/-- A Python object as it can appear in a receiver position: either a
requirement-node object with attribute slots, or a plain value (such as the
string that `TranslationLayerRequirement.__init__` passes where `self`
belongs). -/
inductive PyObj where
  | node (attrs : NodeAttrs)
  | val (v : PyValue)
deriving Repr

/-- Modelled from the spec: `ConfigurationSchemaNode.__init__` (defined in
`volatility.framework.interfaces.configuration`, which is not under src/)
stores `name`, `description`, `default` and `optional` on its receiver
(§3: RequirementNode attributes).  A receiver that is not a node object has
no attribute slots, so nothing is recorded on any node. -/
def ConfigurationSchemaNode.init (self : PyObj)
    (name description default optional : PyValue) : PyObj :=
  match self with
  | .node a => .node { a with
      name := some name
      description := some description
      default := some default
      optional := some optional }
  | .val v => .val v

/-- `TranslationLayerRequirement.__init__(self, name, description=None,
default=None, optional=False, layer_name=None)`.  The source's base call is
`ConfigurationSchemaNode.__init__(name, description, default, optional)` —
it omits `self`, so Python binds `name` to the base initializer's receiver
parameter, shifts every other argument one position left, and the base's
`optional` parameter falls back to its default `False`.  The follow-up
`Configurable.__init__(self)` touches none of the modelled attributes.
Returns the constructed instance together with the object the base
initializer actually operated on. -/
def TranslationLayerRequirement.init
    (name description default optional layer_name : PyValue) : PyObj × PyObj :=
  let self := freshNodeAttrs
  let baseResult :=
    ConfigurationSchemaNode.init (.val name) description default optional (.bool false)
  (.node { self with layer_name := some layer_name }, baseResult)

/-- C1 counterexample: the claim says an integer-typed requirement rejects
every boolean candidate, but `IntRequirement.validate(True)` succeeds —
Python's `isinstance(True, int)` holds because `bool` is a subclass of
`int` — even though `type(True)` is not `int`. -/
theorem int_requirement_accepts_bool :
    SchemaNode.validate (.instanceReq PyType.int "depth" false) (.bool true) ⟨[]⟩ Option.none = .ok ()
      ∧ runtimeType (.bool true) ≠ some PyType.int := by
  refine ⟨by simp [SchemaNode.validate, isinst], by simp [runtimeType]⟩

/-- C1 (amended): `InstanceRequirement.validate` succeeds iff
`isinstance(value, expected_kind)` holds rather than iff the runtime type
is equal to the expected kind: an integer requirement accepts exactly the
values of runtime type `int` or `bool` (bools are accepted, not rejected),
while the `bool`- and `str`-typed requirements accept exactly the values of
that very runtime type. -/
theorem instance_requirement_validate_isinstance
    (name : String) (opt : Bool) (v : PyValue) (ctx : Context) (cr : Option (List Bool)) :
    (SchemaNode.validate (.instanceReq PyType.int name opt) v ctx cr = .ok ()
        ↔ (runtimeType v = some PyType.int ∨ runtimeType v = some PyType.bool))
    ∧ (SchemaNode.validate (.instanceReq PyType.bool name opt) v ctx cr = .ok ()
        ↔ runtimeType v = some PyType.bool)
    ∧ (SchemaNode.validate (.instanceReq PyType.str name opt) v ctx cr = .ok ()
        ↔ runtimeType v = some PyType.str) := by
  cases v <;> simp [SchemaNode.validate, isinst, runtimeType]

/-- C2 counterexample: the claim says a node constructed with
`optional = true` validates an absent value successfully, but
`IntRequirement.validate(None)` raises `TypeError` (`TypeMismatch`)
regardless of the `optional` attribute. -/
theorem optional_int_requirement_rejects_none :
    SchemaNode.validate (.instanceReq PyType.int "depth" true) PyValue.none ⟨[]⟩ Option.none
      = .error (instanceTypeError "depth" PyType.int) := by
  simp [SchemaNode.validate, isinst]

/-- C2 (amended): `InstanceRequirement.validate` never consults the
`optional` attribute: validating an absent value (`None`) fails with the
`TypeMismatch` `TypeError` for every scalar requirement even when
`optional = true`; treating absence as acceptable is left to the caller,
not to `validate`. -/
theorem instance_requirement_ignores_optional_on_none
    (ty : PyType) (name : String) (ctx : Context) (cr : Option (List Bool)) :
    SchemaNode.validate (.instanceReq ty name true) PyValue.none ctx cr
      = .error (instanceTypeError name ty) := by
  cases ty <;> simp [SchemaNode.validate, isinst]

/-- C3 counterexample: the claim says construction with `choices = []`
always fails, but `ChoiceRequirement.__init__` accepts the empty list
(`isinstance([], list)` holds and `any([])` is false) and stores it. -/
theorem choice_requirement_empty_choices_ok :
    ChoiceRequirement.init (.list []) = .ok (.choiceReq []) := rfl

/-- C3 (amended): `ChoiceRequirement` construction fails with the
`InvalidSchema` `TypeError` iff some element of the supplied list is not a
string (or the argument is not a list at all, witnessed by the string
argument conjunct); an empty choices list is accepted. -/
theorem choice_requirement_init_characterization (xs : List PyValue) :
    (ChoiceRequirement.init (.list xs) = .error invalidChoicesError
        ↔ ∃ c ∈ xs, isinst c PyType.str = false)
    ∧ ((∃ cs, ChoiceRequirement.init (.list xs) = .ok (.choiceReq cs))
        ↔ ∀ c ∈ xs, isinst c PyType.str = true)
    ∧ ChoiceRequirement.init (.str "fast") = .error invalidChoicesError := by
  by_cases hb : xs.any (fun c => !(isinst c PyType.str)) = true
  · have hex : ∃ c ∈ xs, isinst c PyType.str = false := by
      simpa [List.any_eq_true] using hb
    have hinit : ChoiceRequirement.init (.list xs) = .error invalidChoicesError := by
      simp [ChoiceRequirement.init, hb]
    refine ⟨by simp [hinit, hex], ?_, rfl⟩
    simp only [hinit]
    constructor
    · rintro ⟨cs, hcs⟩
      exact absurd hcs (by simp)
    · intro hall
      obtain ⟨c, hc, hcf⟩ := hex
      rw [hall c hc] at hcf
      exact absurd hcf (by simp)
  · have hall : ∀ c ∈ xs, isinst c PyType.str = true := by
      simp [List.any_eq_true] at hb
      intro c hc
      simpa using hb c hc
    have hinit : ChoiceRequirement.init (.list xs)
        = .ok (.choiceReq (xs.filterMap (fun c =>
            match c with
            | .str s => some s
            | _ => Option.none))) := by
      simp [ChoiceRequirement.init, hb]
    refine ⟨?_, ?_, rfl⟩
    · simp only [hinit]
      constructor
      · intro hcs
        exact absurd hcs (by simp)
      · rintro ⟨c, hc, hcf⟩
        rw [hall c hc] at hcf
        exact absurd hcf (by simp)
    · exact ⟨fun _ => hall, fun _ => ⟨_, hinit⟩⟩

/-- C4 counterexample: the claim says inverted bounds
(`min_elements > max_elements`) are rejected at construction, but
`ListRequirement.__init__` performs no check on the bounds: construction
with `max_elements = 2`, `min_elements = 5` succeeds. -/
theorem list_requirement_inverted_bounds_constructs :
    ListRequirement.init (.instanceReq PyType.int "n" false) 2 5
      = .ok (.listReq (.instanceReq PyType.int "n" false) 2 5) := rfl

/-- C4 (amended): `ListRequirement` construction fails (with the
`InvalidSchema` `TypeError`) exactly when the element requirement is
itself a `ListRequirement`, whatever the bounds are; `min_elements >
max_elements` is not rejected at construction time. -/
theorem list_requirement_init_fails_iff_nested
    (element_type : SchemaNode) (max_elements min_elements : Int) :
    (∃ e, ListRequirement.init element_type max_elements min_elements = .error e)
      ↔ element_type.isListReq = true := by
  by_cases h : element_type.isListReq = true <;>
    simp [ListRequirement.init, h]

/-- C5 counterexample: the claim says an element failing the element
requirement always yields `ElementInvalid`, taking precedence over
`ArityViolation`; but for `ListRequirement(element=Choice(["a"]), max=1,
min=0)` on `["b", "c"]`, the element `"b"` fails the choice requirement,
yet validate reports the arity `TypeError`, not `ElementInvalid`. -/
theorem list_validate_arity_preempts_element_failure :
    SchemaNode.validate (.listReq (.choiceReq ["a"]) 1 0) (.list [.str "b", .str "c"]) ⟨[]⟩ Option.none
      = .error arityViolationError
    ∧ SchemaNode.validate (.choiceReq ["a"]) (.str "b") ⟨[]⟩ Option.none
      = .error notInChoiceSetError
    ∧ arityViolationError ≠ elementInvalidError := by
  refine ⟨by simp [SchemaNode.validate, kindCheck, declaredKind, isinst],
          by simp [SchemaNode.validate, pyInStrList],
          by decide⟩

/-- C5 (amended): `ListRequirement.validate` checks in this order: an
element whose runtime kind is incompatible with the element requirement's
declared kind yields `ElementInvalid` before (and regardless of) the arity
check; when all kinds are compatible, a length outside
`[min_elements, max_elements]` yields `ArityViolation` even if some element
would fail the element requirement's own validation; only within bounds are
the elements deep-validated, each failure propagating as the element
requirement's own failure kind rather than `ElementInvalid`. -/
theorem list_validate_order
    (element_type : SchemaNode) (max_elements min_elements : Int)
    (xs : List PyValue) (ctx : Context) (cr : Option (List Bool)) :
    ((∃ e ∈ xs, kindCheck e element_type = false) →
      SchemaNode.validate (.listReq element_type max_elements min_elements) (.list xs) ctx cr
        = .error elementInvalidError)
    ∧ ((∀ e ∈ xs, kindCheck e element_type = true) →
        ¬(min_elements ≤ (xs.length : Int) ∧ (xs.length : Int) ≤ max_elements) →
      SchemaNode.validate (.listReq element_type max_elements min_elements) (.list xs) ctx cr
        = .error arityViolationError)
    ∧ ((∀ e ∈ xs, kindCheck e element_type = true) →
        (min_elements ≤ (xs.length : Int) ∧ (xs.length : Int) ≤ max_elements) →
      SchemaNode.validate (.listReq element_type max_elements min_elements) (.list xs) ctx cr
        = runAll (fun e => SchemaNode.validate element_type e ctx Option.none) xs) := by
  refine ⟨?_, ?_, ?_⟩
  · rintro ⟨e, he, hef⟩
    have hall : xs.all (fun e => kindCheck e element_type) = false := by
      rw [List.all_eq_false]
      exact ⟨e, he, by simp [hef]⟩
    simp [SchemaNode.validate, hall]
  · intro hkinds harity
    have hb : xs.all (fun e => kindCheck e element_type) = true := by
      rw [List.all_eq_true]
      exact hkinds
    simp only [SchemaNode.validate, hb, if_true]
    rw [if_neg harity]
  · intro hkinds harity
    have hb : xs.all (fun e => kindCheck e element_type) = true := by
      rw [List.all_eq_true]
      exact hkinds
    simp only [SchemaNode.validate, hb, if_true]
    rw [if_pos harity]

/-- C5 witness: the three branches of `list_validate_order` at concrete
inputs — an `int` element under a choice requirement is `ElementInvalid`
even though the list is over-long; two string elements that fail the
choice requirement still yield `ArityViolation` when over-long; and a
single failing string element within bounds yields the element loop's
result. -/
theorem list_validate_order_witness :
    SchemaNode.validate (.listReq (.choiceReq ["a"]) 0 0) (.list [.int 3]) ⟨[]⟩ Option.none
      = .error elementInvalidError
    ∧ SchemaNode.validate (.listReq (.choiceReq ["a"]) 1 0) (.list [.str "b", .str "c"]) ⟨[]⟩ Option.none
      = .error arityViolationError
    ∧ SchemaNode.validate (.listReq (.choiceReq ["a"]) 5 0) (.list [.str "b"]) ⟨[]⟩ Option.none
      = runAll (fun e => SchemaNode.validate (.choiceReq ["a"]) e ⟨[]⟩ Option.none) [.str "b"] := by
  refine ⟨(list_validate_order _ _ _ _ _ _).1 ⟨.int 3, by simp, rfl⟩,
          (list_validate_order _ _ _ _ _ _).2.1 ?_ (by decide),
          (list_validate_order _ _ _ _ _ _).2.2 ?_ (by decide)⟩
  · intro e he
    simp at he
    rcases he with h | h <;> simp [h, kindCheck, declaredKind, isinst]
  · intro e he
    simp at he
    simp [he, kindCheck, declaredKind, isinst]

/-- C6 counterexample: the claim says the empty child-results sequence
fails `MissingChildResults`, but `DisjunctionRequirement.validate` only
raises that error when `valid_children is None`; for `[]`, `any([])` is
false, so it raises `NoValidChild` (a different `ValueError`). -/
theorem disjunction_empty_children_novalidchild :
    SchemaNode.validate .disjunctionReq PyValue.none ⟨[]⟩ (some [])
      = .error noValidChildError
    ∧ noValidChildError ≠ disjunctionMissingChildrenError := by
  refine ⟨by simp [SchemaNode.validate], by decide⟩

/-- C6 (amended): `DisjunctionRequirement.validate` fails
`MissingChildResults` exactly when `child_results` is absent (`None`);
given a present sequence it succeeds iff some entry is true, so
`[false, false]` fails `NoValidChild`, `[false, true]` succeeds, and the
empty sequence `[]` fails `NoValidChild` (not `MissingChildResults`). -/
theorem disjunction_validate_characterization (v : PyValue) (ctx : Context) (l : List Bool) :
    SchemaNode.validate .disjunctionReq v ctx Option.none
      = .error disjunctionMissingChildrenError
    ∧ SchemaNode.validate .disjunctionReq v ctx (some l)
      = if l.any id then .ok () else .error noValidChildError := by
  constructor <;> simp [SchemaNode.validate]

/-- C7: `ConjunctionRequirement.validate` fails `MissingChildResults` when
`child_results` is absent (`None`); given a present sequence it fails
`AnyChildInvalid` iff some entry is false and succeeds iff every entry is
true. -/
theorem conjunction_validate_characterization (v : PyValue) (ctx : Context) (l : List Bool) :
    SchemaNode.validate .conjunctionReq v ctx Option.none
      = .error conjunctionMissingChildrenError
    ∧ (SchemaNode.validate .conjunctionReq v ctx (some l) = .error anyChildInvalidError
        ↔ ∃ b ∈ l, b = false)
    ∧ (SchemaNode.validate .conjunctionReq v ctx (some l) = .ok ()
        ↔ ∀ b ∈ l, b = true) := by
  refine ⟨by simp [SchemaNode.validate], ?_, ?_⟩ <;>
    by_cases hb : l.all id = true <;>
    simp_all [SchemaNode.validate, List.all_eq_true]

/-- C8: `TranslationLayerRequirement.validate` (the spec's
ResourceReferenceRequirement) fails `TypeMismatch` on every non-string
value, succeeds on a string registered in the context's memory namespace,
and fails `UnresolvedReference` on a string that is not registered. -/
theorem translation_layer_validate_characterization (ctx : Context) (cr : Option (List Bool)) :
    (∀ v : PyValue, runtimeType v ≠ some PyType.str →
      SchemaNode.validate .translationLayerReq v ctx cr = .error translationLayerTypeError)
    ∧ (∀ s : String, s ∈ ctx.memory →
      SchemaNode.validate .translationLayerReq (.str s) ctx cr = .ok ())
    ∧ (∀ s : String, s ∉ ctx.memory →
      SchemaNode.validate .translationLayerReq (.str s) ctx cr
        = .error (unresolvedReferenceError s)) := by
  refine ⟨?_, ?_, ?_⟩
  · intro v hv
    cases v <;> simp_all [SchemaNode.validate, runtimeType]
  · intro s hs
    simp [SchemaNode.validate, hs]
  · intro s hs
    simp [SchemaNode.validate, hs]

/-- C8 witness: against the namespace `{"layer1", "layer2"}`, validating
`"layer1"` succeeds, `"layer9"` fails `UnresolvedReference`, and `42`
fails `TypeMismatch` — the spec's worked example. -/
theorem translation_layer_validate_witness :
    SchemaNode.validate .translationLayerReq (.str "layer1") ⟨["layer1", "layer2"]⟩ Option.none
      = .ok ()
    ∧ SchemaNode.validate .translationLayerReq (.str "layer9") ⟨["layer1", "layer2"]⟩ Option.none
      = .error (unresolvedReferenceError "layer9")
    ∧ SchemaNode.validate .translationLayerReq (.int 42) ⟨["layer1", "layer2"]⟩ Option.none
      = .error translationLayerTypeError := by
  refine ⟨(translation_layer_validate_characterization _ _).2.1 "layer1" (by simp),
          (translation_layer_validate_characterization _ _).2.2 "layer9" (by simp),
          (translation_layer_validate_characterization _ _).1 (.int 42) (by simp [runtimeType])⟩

/-- C9: `TranslationLayerRequirement.__init__` calls the base initializer
without `self`, so the `name` argument lands in the receiver position: for
every argument tuple, the object the base initializer operates on is the
`name` value (not the new instance), and the constructed instance's
`name`, `description`, `default` and `optional` attributes remain unset
(only `_layer_name` is assigned, directly by the subclass). -/
theorem translation_layer_init_receiver_bug
    (name description default optional layer_name : PyValue) :
    (TranslationLayerRequirement.init name description default optional layer_name).2
      = PyObj.val name
    ∧ (TranslationLayerRequirement.init name description default optional layer_name).1
      = PyObj.node ⟨Option.none, Option.none, Option.none, Option.none, some layer_name⟩ :=
  ⟨rfl, rfl⟩

/-- C10: `ConjunctionRequirement.validate` given the empty child-results
sequence `[]` (present, not `None`) succeeds vacuously (`all([])` is
true), while `DisjunctionRequirement.validate` on the same input fails
`NoValidChild`; the empty sequence is not treated as missing child results
by the Conjunction (its outcome differs from the `None` case). -/
theorem conjunction_empty_children_vacuous (v : PyValue) (ctx : Context) :
    SchemaNode.validate .conjunctionReq v ctx (some []) = .ok ()
    ∧ SchemaNode.validate .disjunctionReq v ctx (some []) = .error noValidChildError
    ∧ SchemaNode.validate .conjunctionReq v ctx (some [])
      ≠ SchemaNode.validate .conjunctionReq v ctx Option.none := by
  refine ⟨by simp [SchemaNode.validate], by simp [SchemaNode.validate],
          by simp [SchemaNode.validate]⟩
